import Mathlib

/-!
Verification of the batch imposition engine (`src/batchimposition.ts`).

The geometry engine is embedded shallowly: inches and points are exact
rationals (`ℚ`), grid indices are naturals or integers, JavaScript
`Math.floor` / `Math.ceil` become `Int.floor` / `Int.ceil` on `ℚ`, and
`Math.max` / `Math.min` become `max` / `min`.  Each definition mirrors the
TypeScript function of the same name.
-/

namespace BatchImposition

/-- Points per inch; `const PT = 72, pt = (inch) => inch * PT`. -/
def PT : ℚ := 72

/-- Inch to point conversion, `pt` in the source. -/
def pt (inch : ℚ) : ℚ := inch * PT

/-- Sheet orientation label, the `'portrait' | 'landscape'` union. -/
inductive Orientation
  | portrait
  | landscape
deriving DecidableEq, Repr

/-- The `artRotation` mode strings (`'None' | 'Rows' | 'Columns' | 'EvenPages'`,
matched case-insensitively in `computeArtRotationDegrees`). -/
inductive ArtRotation
  | none
  | rows
  | columns
  | evenPages
deriving DecidableEq, Repr

/-- The fields of one `orderItems[]` entry that the layout and placement
geometry reads.  Sizes are inches as exact rationals. -/
structure OrderItem where
  cutWidthInches : ℚ
  cutHeightInches : ℚ
  impositionMarginHorizontal : ℚ
  impositionMarginVertical : ℚ
  artRotation : ArtRotation
  rotateFirstColumnOrRow : Bool
  imageShiftX : ℚ
  imageShiftY : ℚ
  inArtBarcodeX : ℚ
  inArtBarcodeY : ℚ
deriving DecidableEq, Repr

/-- The `Layout` record computed by `planLayout`. -/
structure Layout where
  sheetWIn : ℚ
  sheetHIn : ℚ
  cols : ℕ
  rows : ℕ
  cellWpt : ℚ
  cellHpt : ℚ
  gapHpt : ℚ
  gapVpt : ℚ
  offX : ℚ
  offY : ℚ
  waste : ℤ
  orientation : Orientation
deriving DecidableEq, Repr

/-- The `BindingEdge` union type. -/
inductive BindingEdge
  | Left
  | Right
  | Top
  | Bottom
deriving DecidableEq, Repr

/-- Model of `Math.max(...)` over a list, as used over the mapped `orderItems`
arrays.  `jobArrived` rejects an empty `orderItems` before any of these
maxima are taken, so only the nonempty case is ever reached. -/
def listMax : List ℚ → ℚ
  | [] => 0
  | x :: xs => xs.foldl max x

/-- Source `gridFit`: `colsMax = Math.max(1, Math.floor((availW + gapH) / (cellW + gapH)))`
and the analogous `rowsMax`.  Both results are at least 1, so `toNat` is
used losslessly where a natural is needed downstream. -/
def gridFit (availW availH cellW cellH gapH gapV : ℚ) : ℤ × ℤ :=
  (max 1 (Int.floor ((availW + gapH) / (cellW + gapH))),
   max 1 (Int.floor ((availH + gapV) / (cellH + gapV))))

/-- The column-shrinking loop of `planLayout`:
`while (rowsNeeded > rowsMax && cols > 1) { cols -= 1; rowsNeeded = Math.ceil(required / cols); }`
expressed as structural recursion on `cols` (the loop decrements `cols`
each iteration and stops at 1). -/
def shrinkCols (required : ℕ) (rowsMax : ℤ) : ℕ → ℕ
  | 0 => 0
  | 1 => 1
  | (n+2) =>
      if rowsMax < Int.ceil ((required : ℚ) / (((n+2 : ℕ) : ℚ))) then
        shrinkCols required rowsMax (n+1)
      else n+2

/-- Source `planLayout(sheetWIn, sheetHIn, orderItems, requiredCountOverride)`.
Returns `none` where the source returns `null`.  The fixed outer margins
are the source's `outerMarginHIn = 0.125, outerMarginVIn = 0.125`. -/
def planLayout (sheetWIn sheetHIn : ℚ) (orderItems : List OrderItem)
    (requiredCountOverride : Option ℕ) : Option Layout :=
  let required : ℕ := max 1 (requiredCountOverride.getD orderItems.length)
  let maxCutWIn : ℚ := listMax (orderItems.map OrderItem.cutWidthInches)
  let maxCutHIn : ℚ := listMax (orderItems.map OrderItem.cutHeightInches)
  if maxCutWIn = 0 ∨ maxCutHIn = 0 then none else
  let gapHIn : ℚ := max (listMax (orderItems.map OrderItem.impositionMarginHorizontal)) 0
  let gapVIn : ℚ := max (listMax (orderItems.map OrderItem.impositionMarginVertical)) 0
  let outerMarginHIn : ℚ := 0.125
  let outerMarginVIn : ℚ := 0.125
  let availWIn := sheetWIn - 2 * outerMarginHIn
  let availHIn := sheetHIn - 2 * outerMarginVIn
  let fit := gridFit availWIn availHIn maxCutWIn maxCutHIn gapHIn gapVIn
  let colsMax := fit.1
  let rowsMax := fit.2
  if colsMax * rowsMax < (required : ℤ) then none else
  let cols : ℕ := shrinkCols required rowsMax (min colsMax.toNat required)
  let rowsNeeded : ℤ := Int.ceil ((required : ℚ) / (cols : ℚ))
  if rowsMax < rowsNeeded then none else
  let rows : ℕ := rowsNeeded.toNat
  let cellWpt := pt maxCutWIn
  let cellHpt := pt maxCutHIn
  let gapHpt := pt gapHIn
  let gapVpt := pt gapVIn
  let arrWpt := (cols : ℚ) * cellWpt + ((cols : ℚ) - 1) * gapHpt
  let arrHpt := (rows : ℚ) * cellHpt + ((rows : ℚ) - 1) * gapVpt
  let sheetWpt := pt sheetWIn
  let sheetHpt := pt sheetHIn
  let offX := pt outerMarginHIn + (sheetWpt - pt outerMarginHIn * 2 - arrWpt) / 2
  let offY := pt outerMarginVIn + (sheetHpt - pt outerMarginVIn * 2 - arrHpt) / 2
  some
    { sheetWIn := sheetWIn
      sheetHIn := sheetHIn
      cols := cols
      rows := rows
      cellWpt := cellWpt
      cellHpt := cellHpt
      gapHpt := gapHpt
      gapVpt := gapVpt
      offX := offX
      offY := offY
      waste := (cols : ℤ) * (rows : ℤ) - (required : ℤ)
      orientation := if sheetHIn ≥ sheetWIn then .portrait else .landscape }

/-- The sheet-dimension selection in `jobArrived` (lines 81-94): an explicit
`portrait`/`landscape` request reorders width and height; with no request
the payload dimensions are used exactly as given. -/
def selectSheet (impositionWidth impositionHeight : ℚ)
    (requestedOrientation : Option Orientation) : ℚ × ℚ :=
  match requestedOrientation with
  | some .portrait => (min impositionWidth impositionHeight, max impositionWidth impositionHeight)
  | some .landscape => (max impositionWidth impositionHeight, min impositionWidth impositionHeight)
  | none => (impositionWidth, impositionHeight)

/-- The layout `jobArrived` plans: `selectSheet` followed by the single
`planLayout` call at line 102. -/
def plannedLayout (impositionWidth impositionHeight : ℚ)
    (requestedOrientation : Option Orientation) (orderItems : List OrderItem)
    (requiredCount : Option ℕ) : Option Layout :=
  let s := selectSheet impositionWidth impositionHeight requestedOrientation
  planLayout s.1 s.2 orderItems requiredCount

/-- A 2x2 inch cut item with zero declared margins, as in the 13x19 sheet
scenario. -/
def item2x2 : OrderItem :=
  { cutWidthInches := 2
    cutHeightInches := 2
    impositionMarginHorizontal := 0
    impositionMarginVertical := 0
    artRotation := .none
    rotateFirstColumnOrRow := false
    imageShiftX := 0
    imageShiftY := 0
    inArtBarcodeX := 0
    inArtBarcodeY := 0 }

/- Helper lemmas for evaluating and reasoning about `planLayout`. -/

theorem ceil_eval (a : ℚ) (z : ℤ) (h1 : (z : ℚ) - 1 < a) (h2 : a ≤ (z : ℚ)) :
    Int.ceil a = z := by
  rw [Int.ceil_eq_iff]
  exact ⟨h1, h2⟩

theorem shrinkCols_of_le (required : ℕ) (rowsMax : ℤ) (cols : ℕ)
    (h : Int.ceil ((required : ℚ) / (cols : ℚ)) ≤ rowsMax) :
    shrinkCols required rowsMax cols = cols := by
  match cols with
  | 0 => rfl
  | 1 => rfl
  | (n+2) =>
      rw [shrinkCols, if_neg]
      exact not_lt.mpr h

theorem shrinkCols_pos (required : ℕ) (rowsMax : ℤ) (cols : ℕ) (h : 1 ≤ cols) :
    1 ≤ shrinkCols required rowsMax cols := by
  induction cols with
  | zero => exact absurd h (by norm_num)
  | succ n ih =>
      match n, ih with
      | 0, _ => exact le_refl 1
      | (m+1), ih =>
          rw [shrinkCols]
          split
          · exact ih (Nat.succ_le_succ (Nat.zero_le m))
          · exact Nat.succ_le_succ (Nat.zero_le (m+1))

theorem le_mul_ceil (required cols : ℕ) (h : 1 ≤ cols) :
    (required : ℤ) ≤ (cols : ℤ) * Int.ceil ((required : ℚ) / (cols : ℚ)) := by
  have hc : (0 : ℚ) < (cols : ℚ) := by exact_mod_cast h
  have hle : ((required : ℚ) / (cols : ℚ)) ≤ (Int.ceil ((required : ℚ) / (cols : ℚ)) : ℚ) :=
    Int.le_ceil _
  have : (required : ℚ) ≤ (cols : ℚ) * (Int.ceil ((required : ℚ) / (cols : ℚ)) : ℚ) := by
    rw [← div_le_iff₀' hc]
    exact hle
  exact_mod_cast this

theorem ceil_pos_of_pos (required cols : ℕ) (hr : 1 ≤ required) (hc : 1 ≤ cols) :
    1 ≤ Int.ceil ((required : ℚ) / (cols : ℚ)) := by
  have hcq : (0 : ℚ) < (cols : ℚ) := by exact_mod_cast hc
  have hrq : (0 : ℚ) < (required : ℚ) := by exact_mod_cast hr
  have : (0 : ℚ) < (required : ℚ) / (cols : ℚ) := div_pos hrq hcq
  exact Int.ceil_pos.mpr this

/-- C2: for every item set whose maximum cut width and height are positive
and every required position count, whenever `planLayout` returns a layout it
satisfies `cols * rows >= required` and `waste = cols * rows - required >= 0`. -/
theorem c2_planLayout_grid_invariant (sheetWIn sheetHIn : ℚ) (orderItems : List OrderItem)
    (_hW : 0 < listMax (orderItems.map OrderItem.cutWidthInches))
    (_hH : 0 < listMax (orderItems.map OrderItem.cutHeightInches))
    (n : ℕ) (hn : 1 ≤ n) (L : Layout)
    (h : planLayout sheetWIn sheetHIn orderItems (some n) = some L) :
    (n : ℤ) ≤ (L.cols : ℤ) * (L.rows : ℤ) ∧
      L.waste = (L.cols : ℤ) * (L.rows : ℤ) - (n : ℤ) ∧ 0 ≤ L.waste := by
  rw [planLayout] at h
  simp only [Option.getD_some] at h
  have hreq : max 1 n = n := max_eq_right hn
  rw [hreq] at h
  split at h
  · exact absurd h (by simp)
  split at h
  · exact absurd h (by simp)
  split at h
  · exact absurd h (by simp)
  rename_i hguard hplace hrowsfit
  -- h : some { ... } = some L
  have hL := (Option.some.injEq _ _).mp h
  set colsMaxPair := gridFit (sheetWIn - 2 * 0.125) (sheetHIn - 2 * 0.125)
      (listMax (orderItems.map OrderItem.cutWidthInches))
      (listMax (orderItems.map OrderItem.cutHeightInches))
      (max (listMax (orderItems.map OrderItem.impositionMarginHorizontal)) 0)
      (max (listMax (orderItems.map OrderItem.impositionMarginVertical)) 0) with hfit
  have hcolsMax1 : 1 ≤ colsMaxPair.1 := by
    rw [hfit]; exact le_max_left 1 _
  have hcols1 : 1 ≤ shrinkCols n colsMaxPair.2 (min colsMaxPair.1.toNat n) := by
    apply shrinkCols_pos
    refine le_min ?_ hn
    omega
  set cols := shrinkCols n colsMaxPair.2 (min colsMaxPair.1.toNat n) with hcols
  set rowsNeeded := Int.ceil ((n : ℚ) / (cols : ℚ)) with hrowsN
  have hrowsPos : 1 ≤ rowsNeeded := ceil_pos_of_pos n cols hn hcols1
  have hrowsNat : ((rowsNeeded.toNat : ℤ)) = rowsNeeded := Int.toNat_of_nonneg (by omega)
  have hcolsL : L.cols = cols := by rw [← hL]
  have hrowsL : L.rows = rowsNeeded.toNat := by rw [← hL]
  have hwasteL : L.waste = (cols : ℤ) * (rowsNeeded.toNat : ℤ) - (n : ℤ) := by rw [← hL]
  have hmain : (n : ℤ) ≤ (cols : ℤ) * rowsNeeded := le_mul_ceil n cols hcols1
  refine ⟨?_, ?_, ?_⟩
  · rw [hcolsL, hrowsL, hrowsNat]
    exact hmain
  · rw [hcolsL, hrowsL, hwasteL]
  · rw [hwasteL, hrowsNat]
    omega

/-- The layout `planLayout` computes for a 13x19 sheet, 2x2 cut items, zero
declared margins and 10 required positions. -/
def layoutPortrait13x19 : Layout :=
  { sheetWIn := 13, sheetHIn := 19, cols := 6, rows := 2,
    cellWpt := 144, cellHpt := 144, gapHpt := 0, gapVpt := 0,
    offX := 36, offY := 540, waste := 2, orientation := .portrait }

/-- The layout `planLayout` computes for a 19x13 sheet, 2x2 cut items, zero
declared margins and 10 required positions. -/
def layoutLandscape19x13 : Layout :=
  { sheetWIn := 19, sheetHIn := 13, cols := 9, rows := 2,
    cellWpt := 144, cellHpt := 144, gapHpt := 0, gapVpt := 0,
    offX := 36, offY := 324, waste := 8, orientation := .landscape }

theorem planLayout_13_19 :
    planLayout 13 19 [item2x2] (some 10) = some layoutPortrait13x19 := by
  have hceil : Int.ceil ((10 : ℚ) / ((6 : ℕ) : ℚ)) = 2 := by
    apply ceil_eval <;> norm_num
  rw [planLayout]
  simp only [listMax, List.map, List.foldl, gridFit, item2x2, Option.getD_some]
  norm_num
  have htn : (Int.toNat 6) = 6 := rfl
  rw [htn]
  have hceilN : Int.ceil (((10 : ℕ) : ℚ) / ((6 : ℕ) : ℚ)) = 2 := by
    apply ceil_eval <;> norm_num
  have hshrink : shrinkCols 10 9 6 = 6 := shrinkCols_of_le 10 9 6 (by rw [hceilN]; norm_num)
  rw [hshrink, hceil]
  have htn2 : (Int.toNat 2) = 2 := rfl
  rw [htn2]
  norm_num [pt, PT, layoutPortrait13x19]

theorem planLayout_19_13 :
    planLayout 19 13 [item2x2] (some 10) = some layoutLandscape19x13 := by
  have hceil : Int.ceil ((10 : ℚ) / ((9 : ℕ) : ℚ)) = 2 := by
    apply ceil_eval <;> norm_num
  rw [planLayout]
  simp only [listMax, List.map, List.foldl, gridFit, item2x2, Option.getD_some]
  norm_num
  have htn : (Int.toNat 9) = 9 := rfl
  rw [htn]
  have hceilN : Int.ceil (((10 : ℕ) : ℚ) / ((9 : ℕ) : ℚ)) = 2 := by
    apply ceil_eval <;> norm_num
  have hshrink : shrinkCols 10 6 9 = 9 := shrinkCols_of_le 10 6 9 (by rw [hceilN]; norm_num)
  rw [hshrink, hceil]
  have htn2 : (Int.toNat 2) = 2 := rfl
  rw [htn2]
  norm_num [pt, PT, layoutLandscape19x13]

/-- C1 counterexample: with no explicit orientation and the payload
dimensions given as width 19, height 13 (a 13x19-unit sheet supplied
landscape-first), 2x2 cut items, zero margins and 10 required positions,
`jobArrived` plans the landscape 19x13 layout with 8 waste cells even though
the 13x19 arrangement would waste only 2 cells, so the planner does not plan
both orientations and does not select the layout with strictly fewer waste
cells. -/
theorem c1_counterexample :
    (plannedLayout 19 13 Option.none [item2x2] (some 10)).map Layout.orientation =
        some .landscape ∧
      (plannedLayout 19 13 Option.none [item2x2] (some 10)).map Layout.waste = some 8 ∧
      (planLayout 13 19 [item2x2] (some 10)).map Layout.waste = some 2 ∧ (2 : ℤ) < 8 := by
  rw [plannedLayout, selectSheet]
  rw [planLayout_19_13, planLayout_13_19]
  refine ⟨rfl, rfl, rfl, by norm_num⟩

/-- C1 (amended): when no explicit sheet orientation is requested the
planner plans exactly one layout, using the payload width and height as
given; no second orientation is planned and no waste comparison is made.
For payload width 13, height 19 with 2x2 cut items, zero margins and 10
required positions it returns the portrait 13x19 layout (cols 6, rows 2,
waste 2); for payload width 19, height 13 it returns the landscape 19x13
layout (cols 9, rows 2, waste 8). -/
theorem c1_no_orientation_uses_payload_dims :
    (∀ (w h : ℚ) (items : List OrderItem) (req : Option ℕ),
        plannedLayout w h Option.none items req = planLayout w h items req) ∧
      planLayout 13 19 [item2x2] (some 10) = some layoutPortrait13x19 ∧
      planLayout 19 13 [item2x2] (some 10) = some layoutLandscape19x13 := by
  refine ⟨fun w h items req => rfl, planLayout_13_19, planLayout_19_13⟩

/-- C2 witness: the 13x19 scenario instantiates the grid invariant. -/
theorem c2_planLayout_grid_invariant_witness :
    (10 : ℤ) ≤ (layoutPortrait13x19.cols : ℤ) * (layoutPortrait13x19.rows : ℤ) ∧
      layoutPortrait13x19.waste =
        (layoutPortrait13x19.cols : ℤ) * (layoutPortrait13x19.rows : ℤ) - (10 : ℤ) ∧
      0 ≤ layoutPortrait13x19.waste :=
  c2_planLayout_grid_invariant 13 19 [item2x2]
    (by norm_num [listMax, item2x2]) (by norm_num [listMax, item2x2])
    10 (by norm_num) layoutPortrait13x19 planLayout_13_19

/-- C10: because `gridFit` clamps `colsMax` and `rowsMax` to at least 1,
`planLayout` never returns `none` when one position is required and the
maximum cut width and height are positive, regardless of the sheet size. -/
theorem c10_single_position_always_plans (sheetWIn sheetHIn : ℚ)
    (orderItems : List OrderItem)
    (hW : 0 < listMax (orderItems.map OrderItem.cutWidthInches))
    (hH : 0 < listMax (orderItems.map OrderItem.cutHeightInches)) :
    ∃ L, planLayout sheetWIn sheetHIn orderItems (some 1) = some L := by
  rw [planLayout]
  simp only [Option.getD_some]
  rw [if_neg (by
    push_neg
    exact ⟨ne_of_gt hW, ne_of_gt hH⟩)]
  set fit := gridFit (sheetWIn - 2 * 0.125) (sheetHIn - 2 * 0.125)
      (listMax (orderItems.map OrderItem.cutWidthInches))
      (listMax (orderItems.map OrderItem.cutHeightInches))
      (max (listMax (orderItems.map OrderItem.impositionMarginHorizontal)) 0)
      (max (listMax (orderItems.map OrderItem.impositionMarginVertical)) 0) with hfit
  have hc1 : 1 ≤ fit.1 := by rw [hfit]; exact le_max_left 1 _
  have hr1 : 1 ≤ fit.2 := by rw [hfit]; exact le_max_left 1 _
  have hreq : max 1 1 = 1 := rfl
  rw [hreq]
  rw [if_neg (by push_neg; have := mul_le_mul hc1 hr1 (by omega) (by omega); simpa using this)]
  have hmin : min fit.1.toNat 1 = 1 := Nat.min_eq_right (by omega)
  rw [hmin]
  have hsh : shrinkCols 1 fit.2 1 = 1 := rfl
  rw [hsh]
  have hce : Int.ceil (((1 : ℕ) : ℚ) / ((1 : ℕ) : ℚ)) = 1 := by
    apply ceil_eval <;> norm_num
  rw [hce]
  rw [if_neg (by omega)]
  exact ⟨_, rfl⟩

/-- C10 witness: a single 5x5 item on a 1x1 sheet still yields a layout,
even though the cell is far larger than the sheet interior minus the fixed
0.125-unit margins. -/
theorem c10_single_position_always_plans_witness :
    ∃ L, planLayout 1 1
        [{ item2x2 with cutWidthInches := 5, cutHeightInches := 5 }] (some 1) = some L :=
  c10_single_position_always_plans 1 1 _
    (by norm_num [listMax, item2x2]) (by norm_num [listMax, item2x2])

/- ---------- RotationResolver / duplex mirroring ---------- -/

/-- Source `computeArtRotationDegrees`: the 0/180 degree rotation rule keyed on the
item's `artRotation` mode.  The source's case-insensitive string matching on
`'evenpages' | 'rows' | 'col...'` is captured by the `ArtRotation` enum. -/
def computeArtRotationDegrees (it : OrderItem) (r c : ℤ) (pageIndex : ℕ) : ℤ :=
  match it.artRotation with
  | .evenPages => if pageIndex % 2 = 1 then 180 else 0
  | .rows =>
      if (if r % 2 = 0 then it.rotateFirstColumnOrRow else !it.rotateFirstColumnOrRow)
        then 180 else 0
  | .columns =>
      if (if c % 2 = 0 then it.rotateFirstColumnOrRow else !it.rotateFirstColumnOrRow)
        then 180 else 0
  | .none => 0

/-- Source `getEffectivePosition`: on a back page (`flipPositionsThisPage`), flip
columns for Left/Right binding and rows for Top/Bottom binding. -/
def getEffectivePosition (r c : ℤ) (layout : Layout) (bindingEdge : BindingEdge)
    (flipPositionsThisPage : Bool) : ℤ × ℤ :=
  if !flipPositionsThisPage then (r, c)
  else
    match bindingEdge with
    | .Left | .Right => (r, (layout.cols : ℤ) - 1 - c)
    | .Top | .Bottom => ((layout.rows : ℤ) - 1 - r, c)

/-- Source `getShiftAdjustments`: on a back page, invert the X shift for Left/Right
binding and the Y shift for Top/Bottom binding. -/
def getShiftAdjustments (bindingEdge : BindingEdge) (flipPositionsThisPage : Bool)
    (imageShiftX imageShiftY : ℚ) : ℚ × ℚ :=
  if !flipPositionsThisPage then (imageShiftX, imageShiftY)
  else
    match bindingEdge with
    | .Left | .Right => (-imageShiftX, imageShiftY)
    | .Top | .Bottom => (imageShiftX, -imageShiftY)

/-- Source `rotationForPage`: base rotation plus 180 degrees (mod 360) on back
pages, for all binding edges. -/
def rotationForPage (it : OrderItem) (rEff cEff : ℤ) (flipPositionsThisPage : Bool)
    (pageIndex : ℕ) : ℤ :=
  let deg := computeArtRotationDegrees it rEff cEff pageIndex
  if flipPositionsThisPage then (deg + 180) % 360 else deg

/-- C3: on a duplex back sheet with Left (or Right) binding, a placement at
column 0 of a 4-column layout gets effective column 3; in general the
effective column is `cols - 1 - c`, the final rotation is the base rotation
plus 180 degrees (mod 360), the X image shift is negated and the Y image
shift is unchanged. -/
theorem c3_left_binding_back_sheet (layout : Layout) (r c : ℤ) (it : OrderItem)
    (p : ℕ) (sx sy : ℚ) (edge : BindingEdge)
    (h4 : layout.cols = 4) (hLR : edge = .Left ∨ edge = .Right) :
    (getEffectivePosition r 0 layout edge true).2 = 3 ∧
      getEffectivePosition r c layout edge true = (r, (layout.cols : ℤ) - 1 - c) ∧
      rotationForPage it r c true p =
        (computeArtRotationDegrees it r c p + 180) % 360 ∧
      getShiftAdjustments edge true sx sy = (-sx, sy) := by
  rcases hLR with h | h <;> subst h <;>
    simp [getEffectivePosition, rotationForPage, getShiftAdjustments, h4]

/-- A concrete 4x2 layout for instantiating the duplex scenario. -/
def layout4x2 : Layout :=
  { sheetWIn := 19, sheetHIn := 13, cols := 4, rows := 2,
    cellWpt := 144, cellHpt := 144, gapHpt := 36, gapVpt := 36,
    offX := 36, offY := 36, waste := 0, orientation := .landscape }

/-- C3 witness: the scenario at layout `layout4x2`, row 0, columns 0 and 1,
shifts (7, 5). -/
theorem c3_left_binding_back_sheet_witness :
    (getEffectivePosition 0 0 layout4x2 .Left true).2 = 3 ∧
      getEffectivePosition 0 1 layout4x2 .Left true = (0, (layout4x2.cols : ℤ) - 1 - 1) ∧
      rotationForPage item2x2 0 1 true 0 =
        (computeArtRotationDegrees item2x2 0 1 0 + 180) % 360 ∧
      getShiftAdjustments .Left true 7 5 = (-7, 5) :=
  c3_left_binding_back_sheet layout4x2 0 1 item2x2 0 7 5 .Left rfl (Or.inl rfl)

/-- C4: duplex position mirroring is an involution: applying the back-sheet
effective-position mapping twice returns the original (row, column), for
every layout and binding edge. -/
theorem c4_duplex_mirror_involution (r c : ℤ) (layout : Layout) (edge : BindingEdge) :
    getEffectivePosition (getEffectivePosition r c layout edge true).1
      (getEffectivePosition r c layout edge true).2 layout edge true = (r, c) := by
  cases edge <;> simp [getEffectivePosition]

/- ---------- PlacementMapper ---------- -/

/-- The placement list built in `jobArrived` (lines 156-173): for each grid
cell in row-major order with index below `requiredCount`, record the item
index (`idx` when below the item count, `idx % itemCount` when the
`partialFillAvailablePositions` policy is active, blank otherwise). -/
def placementsFor (rows cols requiredCount itemCount : ℕ) (partialFill : Bool) :
    List (ℕ × ℕ × Option ℕ) :=
  (List.range rows).flatMap fun r =>
    (List.range cols).filterMap fun c =>
      let idx := r * cols + c
      if idx < requiredCount then
        some (r, c,
          if idx < itemCount then some idx
          else if partialFill ∧ 0 < itemCount then some (idx % itemCount)
          else none)
      else none

theorem mem_placementsFor (rows cols requiredCount itemCount : ℕ) (partialFill : Bool)
    (r c : ℕ) (x : Option ℕ) :
    (r, c, x) ∈ placementsFor rows cols requiredCount itemCount partialFill ↔
      r < rows ∧ c < cols ∧ r * cols + c < requiredCount ∧
        x = (if r * cols + c < itemCount then some (r * cols + c)
             else if partialFill ∧ 0 < itemCount then some ((r * cols + c) % itemCount)
             else none) := by
  simp only [placementsFor, List.mem_flatMap, List.mem_filterMap, List.mem_range]
  constructor
  · rintro ⟨a, ha, b, hb, hsome⟩
    split at hsome
    · rename_i hidx
      simp only [Option.some.injEq, Prod.mk.injEq] at hsome
      obtain ⟨h1, h2, h3⟩ := hsome
      subst h1; subst h2
      exact ⟨ha, hb, hidx, h3.symm⟩
    · exact absurd hsome (by simp)
  · rintro ⟨hr, hc, hidx, hx⟩
    exact ⟨r, hr, c, hc, by rw [if_pos hidx, hx]⟩

/-- C8: for every grid position with row-major index `idx = r * cols + c`
below the required count: if `idx` is below the item count the placement
holds item `idx`; otherwise, if `partialFillAvailablePositions` is active it
holds item `idx % itemCount`; otherwise it is blank.  The placement list
contains exactly that assignment at (r, c). -/
theorem c8_row_major_assignment (rows cols requiredCount itemCount : ℕ)
    (partialFill : Bool) (r c : ℕ) (hr : r < rows) (hc : c < cols)
    (hidx : r * cols + c < requiredCount) (hitems : 0 < itemCount) :
    ((r, c, (if r * cols + c < itemCount then some (r * cols + c)
             else if partialFill then some ((r * cols + c) % itemCount)
             else none)) ∈ placementsFor rows cols requiredCount itemCount partialFill) ∧
      ∀ x, (r, c, x) ∈ placementsFor rows cols requiredCount itemCount partialFill →
        x = (if r * cols + c < itemCount then some (r * cols + c)
             else if partialFill then some ((r * cols + c) % itemCount)
             else none) := by
  have hcond : (if r * cols + c < itemCount then some (r * cols + c)
       else if partialFill ∧ 0 < itemCount then some ((r * cols + c) % itemCount)
       else none)
      = (if r * cols + c < itemCount then some (r * cols + c)
         else if partialFill then some ((r * cols + c) % itemCount)
         else none) := by
    by_cases h1 : r * cols + c < itemCount
    · rw [if_pos h1, if_pos h1]
    · rw [if_neg h1, if_neg h1]
      by_cases h2 : partialFill
      · rw [if_pos (⟨h2, hitems⟩ : partialFill ∧ 0 < itemCount), if_pos h2]
      · rw [if_neg (by tauto), if_neg h2]
  constructor
  · rw [mem_placementsFor]
    exact ⟨hr, hc, hidx, hcond.symm⟩
  · intro x hx
    rw [mem_placementsFor] at hx
    rw [hx.2.2.2, hcond]

/-- C8 witness: 2 rows, 6 columns, 10 required positions, 3 items,
cycle-to-fill active, position (1, 2) (row-major index 8 >= 3) holds item
8 % 3 = 2. -/
theorem c8_row_major_assignment_witness :
    ((1, 2, (if 1 * 6 + 2 < 3 then some (1 * 6 + 2)
             else if true then some ((1 * 6 + 2) % 3)
             else none)) ∈ placementsFor 2 6 10 3 true) :=
  (c8_row_major_assignment 2 6 10 3 true 1 2 (by norm_num) (by norm_num)
    (by norm_num) (by norm_num)).1

/- ---------- CropMarkRenderer: which cells get tick marks ---------- -/

/-- The cells the production crop pass (lines 249-266) draws tick marks
for: it iterates `for (const plc of placements)`, one cell per placement
entry.  On a front sheet the effective position equals the stored (r, c), so
the marked cells are exactly the placements' grid positions. -/
def cropPassCells (rows cols requiredCount itemCount : ℕ) (partialFill : Bool) :
    List (ℕ × ℕ) :=
  (placementsFor rows cols requiredCount itemCount partialFill).map fun p => (p.1, p.2.1)

/-- C6 counterexample: in the 6x2 grid planned for 10 required positions
(the 13x19 scenario, waste 2), the production crop pass draws tick marks for
only the 10 placement cells; the physical grid cells (1, 4) and (1, 5)
(row-major indices 10 and 11, beyond the required count) receive no tick
marks, so marks are not drawn for every one of the cols * rows = 12 cells. -/
theorem c6_counterexample :
    cropPassCells 2 6 10 1 false =
        [(0, 0), (0, 1), (0, 2), (0, 3), (0, 4), (0, 5), (1, 0), (1, 1), (1, 2), (1, 3)] ∧
      (1, 4) ∉ cropPassCells 2 6 10 1 false ∧
      (1, 5) ∉ cropPassCells 2 6 10 1 false ∧
      (cropPassCells 2 6 10 1 false).length = 10 ∧ 2 * 6 = 12 := by
  decide

/-- C6 (amended): on every production sheet the crop-mark pass draws tick
marks for exactly the grid cells whose row-major index is below the required
position count — including blank positions within that count — and for no
grid cell beyond it. -/
theorem c6_crop_cells_exactly_required (rows cols requiredCount itemCount : ℕ)
    (partialFill : Bool) (r c : ℕ) :
    (r, c) ∈ cropPassCells rows cols requiredCount itemCount partialFill ↔
      r < rows ∧ c < cols ∧ r * cols + c < requiredCount := by
  simp only [cropPassCells, List.mem_map]
  constructor
  · rintro ⟨⟨a, b, x⟩, hmem, heq⟩
    have ha : a = r := congrArg Prod.fst heq
    have hb : b = c := congrArg Prod.snd heq
    rw [ha, hb] at hmem
    have := (mem_placementsFor rows cols requiredCount itemCount partialFill r c x).mp hmem
    exact ⟨this.1, this.2.1, this.2.2.1⟩
  · rintro ⟨hr, hc, hidx⟩
    refine ⟨(r, c, (if r * cols + c < itemCount then some (r * cols + c)
         else if partialFill ∧ 0 < itemCount then some ((r * cols + c) % itemCount)
         else none)), ?_, rfl⟩
    rw [mem_placementsFor]
    exact ⟨hr, hc, hidx, rfl⟩

/- ---------- GutterBugPlacer ---------- -/

/-- The `BugSide` union type `'left' | 'right' | 'top' | 'bottom'`. -/
inductive BugSide
  | left
  | right
  | top
  | bottom
deriving DecidableEq, Repr

/-- Constant `BUG_THICKNESS_IN = 0.125`: the label strip thickness in inches. -/
def BUG_THICKNESS_IN : ℚ := 0.125

/-- Constant `BUG_STANDOFF_IN = 0.125`: the desired gap between art edge and strip. -/
def BUG_STANDOFF_IN : ℚ := 0.125

/-- Source `availableGapForSide`: inter-cell gap for interior sides, distance to
the physical sheet edge for boundary sides. -/
def availableGapForSide (side : BugSide) (layout : Layout) (r c : ℤ)
    (xL xR yB yT sheetWpt sheetHpt : ℚ) : ℚ :=
  match side with
  | .left => if c > 0 then layout.gapHpt else xL
  | .right => if c < (layout.cols : ℤ) - 1 then layout.gapHpt else sheetWpt - xR
  | .bottom => if r > 0 then layout.gapVpt else yB
  | .top => if r < (layout.rows : ℤ) - 1 then layout.gapVpt else sheetHpt - yT

/-- The two candidate axes of `pickWithinAxis`. -/
inductive Axis
  | horiz
  | vert
deriving DecidableEq, Repr

/-- Model of `String.prototype.toLowerCase`, character by character (the side names
compared against are plain ASCII). -/
def toLowerStr (s : String) : String := ⟨s.data.map Char.toLower⟩

/-- The inner `pickWithinAxis` closure: filter the axis's two candidate
sides to those whose gap reaches `needPt`, then order by distance to the
sheet edge (the `inside` flag prefers the side farther from its edge, i.e.
nearer the sheet center) and take the first. -/
def pickWithinAxis (gaps distances : BugSide → ℚ) (axis : Axis) (inside : Bool)
    (needPt : ℚ) : Option BugSide :=
  let candidates : List BugSide :=
    match axis with
    | .horiz => [.left, .right]
    | .vert => [.bottom, .top]
  let viable := candidates.filter fun s => decide (gaps s ≥ needPt)
  match viable with
  | [] => none
  | [s] => some s
  | a :: b :: _ =>
      if inside then (if distances a < distances b then some b else some a)
      else (if distances b < distances a then some b else some a)

/-- Source `pickBugSide`: explicit side requests are honored only when that side's
gap reaches the strip thickness; otherwise the Inside/Outside/default logic
compares the two axes, preferring room for thickness plus standoff over
thickness alone. -/
def pickBugSide (pos : String) (layout : Layout) (r c : ℤ)
    (xL xR yB yT sheetWpt sheetHpt : ℚ) : Option BugSide :=
  let thickPt := pt BUG_THICKNESS_IN
  let wantStandOffPt := pt BUG_STANDOFF_IN
  let norm := toLowerStr (if pos = "" then "Inside" else pos)
  let gaps : BugSide → ℚ := fun s =>
    availableGapForSide s layout r c xL xR yB yT sheetWpt sheetHpt
  let distances : BugSide → ℚ := fun s =>
    match s with
    | .left => xL
    | .right => sheetWpt - xR
    | .bottom => yB
    | .top => sheetHpt - yT
  if norm = "left" then (if gaps .left ≥ thickPt then some .left else none)
  else if norm = "right" then (if gaps .right ≥ thickPt then some .right else none)
  else if norm = "top" then (if gaps .top ≥ thickPt then some .top else none)
  else if norm = "bottom" then (if gaps .bottom ≥ thickPt then some .bottom else none)
  else
    let horizMax := max (gaps .left) (gaps .right)
    let vertMax := max (gaps .top) (gaps .bottom)
    let horizOK := horizMax ≥ thickPt
    let vertOK := vertMax ≥ thickPt
    let inside := decide (norm = "inside")
    let needFull := thickPt + wantStandOffPt
    let needMin := thickPt
    if horizOK ∧ vertOK then
      let axis : Axis := if horizMax ≥ vertMax then .horiz else .vert
      let other : Axis := match axis with | .horiz => .vert | .vert => .horiz
      (pickWithinAxis gaps distances axis inside needFull).orElse fun _ =>
        (pickWithinAxis gaps distances other inside needFull).orElse fun _ =>
          (pickWithinAxis gaps distances axis inside needMin).orElse fun _ =>
            pickWithinAxis gaps distances other inside needMin
    else if horizOK then
      (pickWithinAxis gaps distances .horiz inside needFull).orElse fun _ =>
        pickWithinAxis gaps distances .horiz inside needMin
    else if vertOK then
      (pickWithinAxis gaps distances .vert inside needFull).orElse fun _ =>
        pickWithinAxis gaps distances .vert inside needMin
    else none

theorem orElse_some {α : Type} {o : Option α} {f : Unit → Option α} {s : α}
    (h : o.orElse f = some s) : o = some s ∨ f () = some s := by
  cases o with
  | none => right; simpa [Option.orElse] using h
  | some a => left; simpa [Option.orElse] using h

theorem pickWithinAxis_le (gaps distances : BugSide → ℚ) (axis : Axis)
    (inside : Bool) (needPt : ℚ) (s : BugSide)
    (h : pickWithinAxis gaps distances axis inside needPt = some s) :
    needPt ≤ gaps s := by
  cases axis
  case horiz =>
    simp only [pickWithinAxis] at h
    by_cases h1 : gaps .left ≥ needPt <;> by_cases h2 : gaps .right ≥ needPt <;>
      simp [List.filter, h1, h2] at h <;>
      (repeat' split at h) <;>
      (try simp only [Option.some.injEq] at h) <;>
      (try subst h) <;>
      first
        | exact ge_iff_le.mp h1
        | exact ge_iff_le.mp h2
  case vert =>
    simp only [pickWithinAxis] at h
    by_cases h1 : gaps .bottom ≥ needPt <;> by_cases h2 : gaps .top ≥ needPt <;>
      simp [List.filter, h1, h2] at h <;>
      (repeat' split at h) <;>
      (try simp only [Option.some.injEq] at h) <;>
      (try subst h) <;>
      first
        | exact ge_iff_le.mp h1
        | exact ge_iff_le.mp h2

set_option maxHeartbeats 2000000 in
/-- C5: whenever `pickBugSide` returns a side — for any requested position
string (explicit side, Inside, Outside, or anything else) — the available
gap on that side is at least the 0.125-unit strip thickness. -/
theorem c5_bug_side_gap (pos : String) (layout : Layout) (r c : ℤ)
    (xL xR yB yT sheetWpt sheetHpt : ℚ) (side : BugSide)
    (h : pickBugSide pos layout r c xL xR yB yT sheetWpt sheetHpt = some side) :
    pt BUG_THICKNESS_IN ≤
      availableGapForSide side layout r c xL xR yB yT sheetWpt sheetHpt := by
  simp only [pickBugSide] at h
  split_ifs at h
  all_goals try (rw [Option.some.injEq] at h; subst h; assumption)
  all_goals try (simp only [Option.orElse_eq_some'] at h)
  all_goals casesm* _ ∨ _, _ ∧ _
  all_goals (refine le_trans ?_ (pickWithinAxis_le _ _ _ _ _ _ (by assumption)); norm_num [pt, PT, BUG_THICKNESS_IN, BUG_STANDOFF_IN])

/-- C5 witness: an explicit "Left" request at an interior cell of
`layout4x2` (gap 36 points = 0.5 unit) is accepted, and that gap indeed
reaches the 9-point strip thickness. -/
theorem c5_bug_side_gap_witness :
    pt BUG_THICKNESS_IN ≤
      availableGapForSide .left layout4x2 0 1 300 444 100 244 1368 936 :=
  c5_bug_side_gap "Left" layout4x2 0 1 300 444 100 244 1368 936 .left (by
    have hlow : toLowerStr (if ("Left" : String) = "" then "Inside" else "Left") = "left" := by
      decide
    simp only [pickBugSide, hlow]
    norm_num [availableGapForSide, layout4x2, pt, PT, BUG_THICKNESS_IN])

/- ---------- CropMarkRenderer: tick lengths ---------- -/

/-- The lengths `drawIndividualCrops` computes and draws.  Each corner gets
one vertical tick of length `topLen`/`bottomLen` and one horizontal tick of
length `leftLen`/`rightLen`; the drawn line segments have exactly these
lengths (e.g. from `yT + off` to `yT + off + topLen`). -/
structure CropLens where
  off : ℚ
  perimeterLen : ℚ
  interiorLenH : ℚ
  interiorLenV : ℚ
  topLen : ℚ
  leftLen : ℚ
  rightLen : ℚ
  bottomLen : ℚ
deriving DecidableEq, Repr

/-- The length computations at the top of `drawIndividualCrops`.  The
production pass calls it with `gapIn = 0.25` (corner offset) and
`lenIn = 0.125` (perimeter tick length). -/
def drawIndividualCropsLens (gapIn lenIn : ℚ)
    (isLeftEdge isRightEdge isBottomEdge isTopEdge : Bool)
    (gapHorizontal gapVertical : ℚ) : CropLens :=
  let off := pt gapIn
  let perimeterLen := pt lenIn
  let maxInteriorLenH := max 0 ((gapHorizontal - off * 2) * 0.4)
  let maxInteriorLenV := max 0 ((gapVertical - off * 2) * 0.4)
  let interiorLenH := min (pt 0.03125) maxInteriorLenH
  let interiorLenV := min (pt 0.03125) maxInteriorLenV
  { off := off
    perimeterLen := perimeterLen
    interiorLenH := interiorLenH
    interiorLenV := interiorLenV
    topLen := if isTopEdge then perimeterLen else interiorLenV
    leftLen := if isLeftEdge then perimeterLen else interiorLenH
    rightLen := if isRightEdge then perimeterLen else interiorLenH
    bottomLen := if isBottomEdge then perimeterLen else interiorLenV }

/-- C7 counterexample: with the production parameters and zero inter-cell
gaps (exactly the planned 13x19 scenario, whose layout has
`gapHpt = gapVpt = 0`), a corner not on the outer boundary gets a drawn
horizontal tick length of 0, but the claimed bound
`min(1/32 unit, 0.4 * (gap - 2 * 1/16 unit))` is negative (-18/5 points), so
the drawn length is not at most the claimed bound. -/
theorem c7_counterexample :
    (drawIndividualCropsLens 0.25 0.125 false false false false 0 0).leftLen = 0 ∧
      min (pt 0.03125) ((0 - 2 * pt 0.0625) * 0.4) = -18 / 5 ∧
      ¬((drawIndividualCropsLens 0.25 0.125 false false false false 0 0).leftLen ≤
          min (pt 0.03125) ((0 - 2 * pt 0.0625) * 0.4)) := by
  norm_num [drawIndividualCropsLens, pt, PT]

/-- C7 (amended): for every corner side that is not on the grid's outer
boundary, the drawn interior tick length in that axis is at most
`min(1/32 unit, max(0, 0.4 * (available inter-cell gap in that axis minus
2 * 1/16 unit)))` — the code's own corner offset is 1/4 unit, which makes
its interior ticks no longer than this bound. -/
theorem c7_interior_tick_bound (eL eR eB eT : Bool) (gapH gapV : ℚ) :
    (eL = false →
        (drawIndividualCropsLens 0.25 0.125 eL eR eB eT gapH gapV).leftLen ≤
          min (pt 0.03125) (max 0 ((gapH - 2 * pt 0.0625) * 0.4))) ∧
      (eR = false →
        (drawIndividualCropsLens 0.25 0.125 eL eR eB eT gapH gapV).rightLen ≤
          min (pt 0.03125) (max 0 ((gapH - 2 * pt 0.0625) * 0.4))) ∧
      (eB = false →
        (drawIndividualCropsLens 0.25 0.125 eL eR eB eT gapH gapV).bottomLen ≤
          min (pt 0.03125) (max 0 ((gapV - 2 * pt 0.0625) * 0.4))) ∧
      (eT = false →
        (drawIndividualCropsLens 0.25 0.125 eL eR eB eT gapH gapV).topLen ≤
          min (pt 0.03125) (max 0 ((gapV - 2 * pt 0.0625) * 0.4))) := by
  refine ⟨?_, ?_, ?_, ?_⟩ <;> intro hflag <;> subst hflag <;>
    simp only [drawIndividualCropsLens, Bool.false_eq_true, if_false] <;>
    (refine min_le_min (le_refl _) (max_le_max (le_refl _) ?_)) <;>
    (simp only [pt, PT]; linarith)

/-- C7 witness: non-boundary corner with 1-unit gaps in both axes. -/
theorem c7_interior_tick_bound_witness :
    (drawIndividualCropsLens 0.25 0.125 false false false false 72 72).leftLen ≤
      min (pt 0.03125) (max 0 ((72 - 2 * pt 0.0625) * 0.4)) :=
  (c7_interior_tick_bound false false false false 72 72).1 rfl

/- ---------- RotationStableMarker (in-art barcode) ---------- -/

/-- Source `normDeg`: normalize an angle in degrees to [0, 360). -/
def normDeg (d : ℤ) : ℤ := ((d % 360) + 360) % 360

/-- Model of `Math.cos(deg2rad(d))` at the quarter-turn angles the engine produces
(`rotationForPage` only ever yields multiples of 90 degrees); exact
rational values in place of the transcendental cosine. -/
def rotCos (d : ℤ) : ℚ :=
  if normDeg d = 90 ∨ normDeg d = 270 then 0
  else if normDeg d = 180 then -1 else 1

/-- Model of `Math.sin(deg2rad(d))` at the quarter-turn angles the engine produces. -/
def rotSin (d : ℤ) : ℚ :=
  if normDeg d = 90 then 1 else if normDeg d = 270 then -1 else 0

/-- The cut box's lower-left corner in sheet coordinates (`cutLLx, cutLLy`
in `drawInArtBarcodeAtTargetPage`): when bleed is present the cut box sits
centered inside the placed bleed area. -/
def cutLowerLeft (x0 y0 cutWpt cutHpt bleedWpt bleedHpt : ℚ) : ℚ × ℚ :=
  (x0 + max 0 ((bleedWpt - cutWpt) / 2), y0 + max 0 ((bleedHpt - cutHpt) / 2))

/-- The draw-origin computation of `drawInArtBarcodeAtTargetPage`: clamp the
user offsets at 0, find the marker's intended center in the unrotated
frame, rotate that center about the cut center by the placement angle, and
subtract the rotated half-extents.  `w` and `h` stand for the final marker
size (barcode image scaled to the capped target, or the text metrics in the
fallback); the computed origin does not depend on how they were derived. -/
def drawInArtMarkerOrigin (it : OrderItem) (rotDeg : ℤ)
    (x0 y0 cutWpt cutHpt bleedWpt bleedHpt w h : ℚ) : ℚ × ℚ :=
  let inXpt := max 0 (pt it.inArtBarcodeX)
  let inYpt := max 0 (pt it.inArtBarcodeY)
  let cutLLx := x0 + max 0 ((bleedWpt - cutWpt) / 2)
  let cutLLy := y0 + max 0 ((bleedHpt - cutHpt) / 2)
  let cutCx := cutLLx + cutWpt / 2
  let cutCy := cutLLy + cutHpt / 2
  let centerX0 := cutLLx + inXpt + w / 2
  let centerY0 := cutLLy + inYpt + h / 2
  let cosT := rotCos rotDeg
  let sinT := rotSin rotDeg
  let vx := centerX0 - cutCx
  let vy := centerY0 - cutCy
  let centerX := cutCx + (vx * cosT - vy * sinT)
  let centerY := cutCy + (vx * sinT + vy * cosT)
  let halfWx := (w / 2) * cosT - (h / 2) * sinT
  let halfWy := (w / 2) * sinT + (h / 2) * cosT
  (centerX - halfWx, centerY - halfWy)

/-- C9 counterexample: with user offset X = -1 unit (Y = 0) at rotation 0,
the computed origin is the cut lower-left corner itself (the negative
offset is clamped to 0), not the corner plus the user offset, which would
be 72 points to the left. -/
theorem c9_counterexample :
    drawInArtMarkerOrigin { item2x2 with inArtBarcodeX := -1 } 0 0 0 144 144 144 144 72 18 =
        (0, 0) ∧
      ((cutLowerLeft 0 0 144 144 144 144).1 + pt (-1),
          (cutLowerLeft 0 0 144 144 144 144).2 + pt 0) = (-72, 0) ∧
      drawInArtMarkerOrigin { item2x2 with inArtBarcodeX := -1 } 0 0 0 144 144 144 144 72 18 ≠
        ((cutLowerLeft 0 0 144 144 144 144).1 + pt (-1),
          (cutLowerLeft 0 0 144 144 144 144).2 + pt 0) := by
  norm_num [drawInArtMarkerOrigin, cutLowerLeft, rotCos, rotSin, normDeg, pt, PT, item2x2,
    Prod.ext_iff]

/-- C9 (amended): at placement rotation 0 degrees, the computed marker draw
origin equals the cut box's lower-left corner plus the clamped user offset
`(max 0 (pt X), max 0 (pt Y))` — for every item configuration, including
negative offsets and every marker size; when both user offsets are
nonnegative (the clamp is the identity) it equals the corner plus the user
offset exactly. -/
theorem c9_marker_origin_at_rot0 (it : OrderItem)
    (x0 y0 cutWpt cutHpt bleedWpt bleedHpt w h : ℚ) :
    drawInArtMarkerOrigin it 0 x0 y0 cutWpt cutHpt bleedWpt bleedHpt w h =
        ((cutLowerLeft x0 y0 cutWpt cutHpt bleedWpt bleedHpt).1 +
            max 0 (pt it.inArtBarcodeX),
          (cutLowerLeft x0 y0 cutWpt cutHpt bleedWpt bleedHpt).2 +
            max 0 (pt it.inArtBarcodeY)) ∧
      (0 ≤ it.inArtBarcodeX → 0 ≤ it.inArtBarcodeY →
        drawInArtMarkerOrigin it 0 x0 y0 cutWpt cutHpt bleedWpt bleedHpt w h =
          ((cutLowerLeft x0 y0 cutWpt cutHpt bleedWpt bleedHpt).1 + pt it.inArtBarcodeX,
            (cutLowerLeft x0 y0 cutWpt cutHpt bleedWpt bleedHpt).2 + pt it.inArtBarcodeY)) := by
  have hc : rotCos 0 = 1 := by norm_num [rotCos, normDeg]
  have hs : rotSin 0 = 0 := by norm_num [rotSin, normDeg]
  have hgen : drawInArtMarkerOrigin it 0 x0 y0 cutWpt cutHpt bleedWpt bleedHpt w h =
      ((cutLowerLeft x0 y0 cutWpt cutHpt bleedWpt bleedHpt).1 +
          max 0 (pt it.inArtBarcodeX),
        (cutLowerLeft x0 y0 cutWpt cutHpt bleedWpt bleedHpt).2 +
          max 0 (pt it.inArtBarcodeY)) := by
    simp only [drawInArtMarkerOrigin, cutLowerLeft, hc, hs]
    rw [Prod.mk.injEq]
    constructor <;> ring
  refine ⟨hgen, fun hx hy => ?_⟩
  rw [hgen]
  have hxc : max 0 (pt it.inArtBarcodeX) = pt it.inArtBarcodeX :=
    max_eq_right (by rw [pt, PT]; positivity)
  have hyc : max 0 (pt it.inArtBarcodeY) = pt it.inArtBarcodeY :=
    max_eq_right (by rw [pt, PT]; positivity)
  rw [hxc, hyc]

/-- C9 witness: the exact-offset clause at offsets (0.5, 0.25) units with a
2x2-unit cut box and no extra bleed. -/
theorem c9_marker_origin_at_rot0_witness :
    drawInArtMarkerOrigin
        { item2x2 with inArtBarcodeX := 0.5, inArtBarcodeY := 0.25 }
        0 10 20 144 144 144 144 72 18 =
      ((cutLowerLeft 10 20 144 144 144 144).1 + pt 0.5,
        (cutLowerLeft 10 20 144 144 144 144).2 + pt 0.25) :=
  (c9_marker_origin_at_rot0
    { item2x2 with inArtBarcodeX := 0.5, inArtBarcodeY := 0.25 }
    10 20 144 144 144 144 72 18).2 (by norm_num) (by norm_num)

end BatchImposition
